import Mathlib

/-!
Verification development for the gym-cartpole-visual environment
(src/gym_cartpole_visual/envs/cartpole_visual_env.py).

The Python source is shallowly embedded below. Machine floating point is
modelled by the reals; the physical state, the episode bookkeeping, the
seeding scheme and the palette roll are translated definition by
definition from the source. The seeded numpy generator is modelled
abstractly: its stream of standard-normal scalar draws is a parameter
`draw : seed -> position -> value`, and the generator state records the
seed it was initialised from together with the current stream position.
The pixel rasterisation performed by the external gym viewer is out of
scope (it is an external collaborator); `render` is modelled as returning
the data the source passes to the viewer (cart translation and pole
rotation), or `none` when no episode is active, exactly as the source
returns `None` then.
-/

namespace CartPoleVisual

noncomputable section

open Classical

/-- The physical state tuple `(x, x_dot, theta, theta_dot)` held in
`self.state`. -/
@[ext]
structure PState where
  x : ℝ
  x_dot : ℝ
  theta : ℝ
  theta_dot : ℝ

/-- `self.gravity = 9.8` -/
def gravity : ℝ := 9.8

/-- `self.masscart = 1.0` -/
def masscart : ℝ := 1.0

/-- `self.masspole = 0.1` -/
def masspole : ℝ := 0.1

/-- `self.total_mass = self.masspole + self.masscart` -/
def total_mass : ℝ := masspole + masscart

/-- `self.polelength = 5` (half the pole length). -/
def polelength : ℝ := 5

/-- `self.polemass_length = self.masspole * self.polelength` -/
def polemass_length : ℝ := masspole * polelength

/-- `self.force_mag = 10.` -/
def force_mag : ℝ := 10

/-- `self.tau = 0.02` (seconds between state updates). -/
def tau : ℝ := 0.02

/-- The two integrator choices named by the string
`self.kinematics_integrator`. -/
inductive Integrator where
  | euler : Integrator
  | semiImplicit : Integrator
deriving DecidableEq

/-- `self.kinematics_integrator = 'euler'` -/
def kinematics_integrator : Integrator := Integrator.euler

/-- `self.theta_threshold_radians = 12 * 2 * math.pi / 360` -/
def theta_threshold_radians : ℝ := 12 * 2 * Real.pi / 360

/-- `self.x_threshold = 2.4` -/
def x_threshold : ℝ := 2.4

/-- `screen_width = 64` in `render`. -/
def screen_width : ℝ := 64

/-- `world_width = self.x_threshold * 2` in `render`. -/
def world_width : ℝ := x_threshold * 2

/-- `scale = screen_width / world_width` in `render`. -/
def scale : ℝ := screen_width / world_width

/-- The seeded numpy generator `self.np_random`: the seed it was created
from and the current position in its scalar standard-normal stream. -/
structure Gen where
  seed : ℤ
  pos : ℕ
deriving DecidableEq

/-- `seed_set`: `self.np_random, seed = seeding.np_random(seed)` creates a
fresh generator from `seed` and returns the seed actually used. -/
def seed_set (seed : ℤ) : Gen × ℤ := (⟨seed, 0⟩, seed)

/-- An RGB triple, one numpy color array. -/
def Color : Type := ℝ × ℝ × ℝ

/-- The data the source hands to the external viewer on a `render` call:
`self.carttrans.set_translation(cartx, carty)` and
`self.poletrans.set_rotation(-x[2])`.  The actual pixel buffer is produced
by the external gym rendering collaborator from these. -/
structure RenderOut where
  cartx : ℝ
  carty : ℝ
  rotation : ℝ

/-- The mutable attributes of `CartPoleVisualEnv`. -/
structure Env where
  num_levels : ℤ
  offset : ℤ
  seed : ℤ
  np_random : Gen
  state : Option PState
  steps_beyond_done : Option ℕ
  viewer : Option Unit
  polecolor : Color
  cartcolor : Color
  axlecolor : Color
  trackcolor : Color
  backgroundcolor : Color

/-- `__init__(self, num_levels, start_level)`.  `entropy` models the
process-level `randrange(2**32)` draw used when `num_levels == 0`. -/
def initEnv (num_levels start_level entropy : ℤ) : Env :=
  let s := if num_levels = 0 then seed_set entropy else seed_set start_level
  { num_levels := num_levels
    offset := start_level
    seed := s.2
    np_random := s.1
    state := none
    steps_beyond_done := none
    viewer := none
    polecolor := (0, 0, 1)
    cartcolor := (1, 1, 0)
    axlecolor := (1, 0, 1)
    trackcolor := (0, 1, 1)
    backgroundcolor := (1, 1, 1) }

/-- The physics portion of `step` (source lines 106-123): force selection,
the `temp`, `thetaacc`, `xacc` formulas at the pre-update state, and the
integrator update. -/
def physicsStep (s : PState) (action : ℤ) : PState :=
  let force := if action = 1 then force_mag else -force_mag
  let costheta := Real.cos s.theta
  let sintheta := Real.sin s.theta
  let temp := (force + polemass_length * s.theta_dot * s.theta_dot * sintheta) / total_mass
  let thetaacc := (gravity * sintheta - costheta * temp) /
    (polelength * (4.0 / 3.0 - masspole * costheta * costheta / total_mass))
  let xacc := temp - polemass_length * thetaacc * costheta / total_mass
  if kinematics_integrator = Integrator.euler then
    { x := s.x + tau * s.x_dot
      x_dot := s.x_dot + tau * xacc
      theta := s.theta + tau * s.theta_dot
      theta_dot := s.theta_dot + tau * thetaacc }
  else
    let x_dot1 := s.x_dot + tau * xacc
    let theta_dot1 := s.theta_dot + tau * thetaacc
    { x := s.x + tau * x_dot1
      x_dot := x_dot1
      theta := s.theta + tau * theta_dot1
      theta_dot := theta_dot1 }

/-- The termination test of `step` (source lines 124-128), evaluated on
the freshly updated state. -/
def doneCond (s : PState) : Prop :=
  s.x < -x_threshold ∨ s.x > x_threshold ∨
  s.theta < -theta_threshold_radians ∨ s.theta > theta_threshold_radians

/-- `render` (source lines 182-234): lazily constructs the viewer, then
returns `None` when `self.state is None`, else the viewer call data. -/
def render (env : Env) : Env × Option RenderOut :=
  let env1 : Env := if env.viewer = none then { env with viewer := some () } else env
  match env.state with
  | none => (env1, none)
  | some s => (env1, some { cartx := s.x * scale + screen_width / 2, carty := 10, rotation := -s.theta })

/-- The failure conditions of `step`: the action-space assertion (source
line 104) and the unpacking of an absent state (source lines 105-106). -/
inductive StepErr where
  | invalidAction : StepErr
  | noActiveEpisode : StepErr
deriving DecidableEq

/-- The tuple returned by `step`: observation, reward, done flag as an
integer, and the `level_seed` info entry. -/
structure StepResult where
  obs : Option RenderOut
  reward : ℝ
  done : ℤ
  level_seed : ℤ

/-- `step(self, action)` (source lines 103-146). -/
def step (env : Env) (action : ℤ) : Except StepErr (Env × StepResult) :=
  if 0 ≤ action ∧ action < 2 then
    match env.state with
    | none => .error .noActiveEpisode
    | some s =>
      let s1 := physicsStep s action
      let done := doneCond s1
      let upd : Option ℕ × ℝ :=
        if done then
          match env.steps_beyond_done with
          | none => (some 0, 1)
          | some n => (some (n + 1), 0)
        else (env.steps_beyond_done, 1)
      let env1 : Env := { env with state := some s1, steps_beyond_done := upd.1 }
      let r := render env1
      .ok (r.1, { obs := r.2, reward := upd.2, done := if done then 1 else 0, level_seed := env.seed })
  else .error .invalidAction

/-- `np.clip(v, 0., 1.)` on one scalar. -/
def clip01 (v : ℝ) : ℝ := min (max v 0) 1

/-- Component-wise clipping of one color triple. -/
def clip3 (t : Color) : Color := (clip01 t.1, clip01 t.2.1, clip01 t.2.2)

/-- `self.np_random.normal(0.5, 0.5, 3)`: three scalars from the seeded
stream, each `loc + scale * z` with `loc = 0.5`, `scale = 0.5` and `z` the
next standard-normal draw; advances the stream position by 3. -/
def normal3 (draw : ℤ → ℕ → ℝ) (g : Gen) : Color × Gen :=
  ((0.5 + 0.5 * draw g.seed g.pos,
    0.5 + 0.5 * draw g.seed (g.pos + 1),
    0.5 + 0.5 * draw g.seed (g.pos + 2)),
   ⟨g.seed, g.pos + 3⟩)

/-- `change_color` (source lines 169-180): five sequential clipped
3-component normal draws assigned to pole, cart, axle, track, background.
The `set_color` pushes to the viewer geometries are external side
effects. -/
def change_color (draw : ℤ → ℕ → ℝ) (env : Env) : Env :=
  let p1 := normal3 draw env.np_random
  let p2 := normal3 draw p1.2
  let p3 := normal3 draw p2.2
  let p4 := normal3 draw p3.2
  let p5 := normal3 draw p4.2
  { env with
    polecolor := clip3 p1.1
    cartcolor := clip3 p2.1
    axlecolor := clip3 p3.1
    trackcolor := clip3 p4.1
    backgroundcolor := clip3 p5.1
    np_random := p5.2 }

/-- `reset` (source lines 148-167).  `entropy` models the process-level
`randrange(2**32)` draw, `initState` the `np.random.uniform` initial state
drawn from the unseeded process-wide source. -/
def reset (draw : ℤ → ℕ → ℝ) (entropy : ℤ) (initState : PState) (env : Env) : Env × Option RenderOut :=
  let s := if env.num_levels = 0 then seed_set entropy else seed_set env.offset
  let env1 : Env := { env with
    seed := s.2
    np_random := s.1
    state := some initState
    steps_beyond_done := none }
  let env2 := (render env1).1
  let env3 := change_color draw env2
  render env3

/-- `close` (source lines 236-239). -/
def close (env : Env) : Env :=
  match env.viewer with
  | some _ => { env with viewer := none }
  | none => env

/-- Written from the claim wording of C1 only (not from the source): the
claimed termination predicate with threshold `24 * pi / 180`. -/
def claimedDone (s : PState) : Prop :=
  s.x < -2.4 ∨ s.x > 2.4 ∨
  s.theta < -(24 * Real.pi / 180) ∨ s.theta > 24 * Real.pi / 180

/-- Written from the spec wording of section 4.1 only (not from the
source): `force = +forceMag if action = 1 else -forceMag` with
`forceMag = 10`. -/
def specForce (action : ℤ) : ℝ := if action = 1 then 10 else -10

/-- Spec section 4.1: `temp = (force + poleMassLength * theta_dot^2 * sintheta) / totalMass`
with `poleMassLength = poleMass * poleLength = 0.1 * 5` and
`totalMass = cartMass + poleMass = 1.0 + 0.1`. -/
def specTemp (s : PState) (action : ℤ) : ℝ :=
  (specForce action + (0.1 * 5) * s.theta_dot ^ 2 * Real.sin s.theta) / (1.0 + 0.1)

/-- Spec section 4.1:
`thetaAcc = (g*sintheta - costheta*temp) / (poleLength*(4/3 - poleMass*costheta^2/totalMass))`. -/
def specThetaAcc (s : PState) (action : ℤ) : ℝ :=
  (9.8 * Real.sin s.theta - Real.cos s.theta * specTemp s action) /
    (5 * (4 / 3 - 0.1 * Real.cos s.theta ^ 2 / (1.0 + 0.1)))

/-- Spec section 4.1: `xAcc = temp - poleMassLength*thetaAcc*costheta/totalMass`. -/
def specXAcc (s : PState) (action : ℤ) : ℝ :=
  specTemp s action - (0.1 * 5) * specThetaAcc s action * Real.cos s.theta / (1.0 + 0.1)

/-- Spec section 4.1: explicit forward Euler with `dt = 0.02`, the
accelerations taken at the pre-update state. -/
def specEulerStep (s : PState) (action : ℤ) : PState :=
  { x := s.x + 0.02 * s.x_dot
    x_dot := s.x_dot + 0.02 * specXAcc s action
    theta := s.theta + 0.02 * s.theta_dot
    theta_dot := s.theta_dot + 0.02 * specThetaAcc s action }

/-- A live concrete environment used by witnesses: fresh instance with an
episode started at the origin state. -/
def wS : PState := ⟨0, 0, 0, 0⟩

/-- Witness environment: live episode, origin state, no termination yet. -/
def wEnvA : Env := { initEnv 1 0 0 with state := some wS }

/-- Witness environment with `steps_beyond_done` already set. -/
def c9Env : Env := { initEnv 1 0 0 with state := some wS, steps_beyond_done := some 0 }

/-- Counterexample input for C1: a state whose post-update angle lies
strictly between 12 and 24 degrees. -/
def c1S : PState := ⟨0, 0, 0.3, 0⟩

/-- Environment holding `c1S`. -/
def c1Env : Env := { initEnv 1 5 0 with state := some c1S }

/-- Start state of the recovery trajectory: about to cross the position
threshold while moving back toward the track centre. -/
def cexS0 : PState := ⟨2.7, -10, 0, 0⟩

/-- State after one `step` with action 0 from `cexS0`: position 2.5 is past
the threshold, so this step reports termination. -/
def cexS1 : PState := ⟨2.5, -418 / 41, 0, 6 / 205⟩

/-- State after a second `step` with action 0: position back inside the
threshold, angle still tiny, so the termination test fails again. -/
def cexS2 : PState := ⟨4707 / 2050, -426 / 41, 3 / 5125, 12 / 205⟩

/-- Counterexample environment before the first of the two steps. -/
def cexEnv0 : Env := { initEnv 1 5 0 with state := some cexS0, viewer := some () }

/-- Counterexample environment after the first (terminating) step. -/
def cexEnv1 : Env :=
  { cexEnv0 with
    state := some cexS1
    steps_beyond_done := some 0
    viewer := some () }

/-- The lazily constructed viewer handle is present after any `render`
call; all other fields of the first component are untouched. -/
theorem render_fst (env : Env) : (render env).1 = { env with viewer := some () } := by
  obtain ⟨nl, off, sd, g, st, sbd, vw, pc, cc, ac, tc, bc⟩ := env
  cases st <;> rcases vw with _ | ⟨⟩ <;> simp [render]

/-- `render` returns no buffer data when no episode is active. -/
theorem render_snd_none (env : Env) (h : env.state = none) : (render env).2 = none := by
  simp [render, h]

/-- `render` returns the viewer call data exactly on a live state. -/
theorem render_snd (env : Env) :
    (render env).2 = env.state.map
      (fun s => { cartx := s.x * scale + screen_width / 2, carty := 10, rotation := -s.theta }) := by
  cases h : env.state <;> simp [render, h]

/-- `render` on a live state returns the viewer call data. -/
theorem render_snd_some (env : Env) (s : PState) (h : env.state = some s) :
    (render env).2 = some { cartx := s.x * scale + screen_width / 2, carty := 10, rotation := -s.theta } := by
  simp [render_snd, h]

/-- `step` on an invalid action fails the action-space assertion. -/
theorem step_invalid (env : Env) (a : ℤ) (h : ¬(0 ≤ a ∧ a < 2)) :
    step env a = .error .invalidAction := by
  simp [step, h]

/-- `step` before any `reset` fails unpacking the absent state. -/
theorem step_no_episode (env : Env) (a : ℤ) (ha : 0 ≤ a) (ha2 : a < 2)
    (h : env.state = none) : step env a = .error .noActiveEpisode := by
  simp [step, h, ha, ha2]

/-- `step` when the updated state does not satisfy the termination test:
reward 1, done 0, `steps_beyond_done` untouched. -/
theorem step_ok_notdone (env : Env) (s : PState) (a : ℤ) (hs : env.state = some s)
    (ha : 0 ≤ a) (ha2 : a < 2) (hd : ¬ doneCond (physicsStep s a)) :
    step env a = .ok
      ({ env with
          state := some (physicsStep s a)
          steps_beyond_done := env.steps_beyond_done
          viewer := some () },
       { obs := some
            { cartx := (physicsStep s a).x * scale + screen_width / 2
              carty := 10
              rotation := -(physicsStep s a).theta }
         reward := 1
         done := 0
         level_seed := env.seed }) := by
  simp only [step, hs, ha, ha2, and_self, if_true, if_neg hd, render_fst, render_snd,
    Option.map_some']

/-- `step` on the first call whose updated state satisfies the termination
test: reward 1, done 1, `steps_beyond_done` set to 0. -/
theorem step_ok_done_first (env : Env) (s : PState) (a : ℤ) (hs : env.state = some s)
    (ha : 0 ≤ a) (ha2 : a < 2) (hd : doneCond (physicsStep s a))
    (hn : env.steps_beyond_done = none) :
    step env a = .ok
      ({ env with
          state := some (physicsStep s a)
          steps_beyond_done := some 0
          viewer := some () },
       { obs := some
            { cartx := (physicsStep s a).x * scale + screen_width / 2
              carty := 10
              rotation := -(physicsStep s a).theta }
         reward := 1
         done := 1
         level_seed := env.seed }) := by
  simp only [step, hs, ha, ha2, and_self, if_true, if_pos hd, hn, render_fst, render_snd,
    Option.map_some']

/-- `step` on a later call whose updated state satisfies the termination
test: reward 0, done 1, `steps_beyond_done` incremented. -/
theorem step_ok_done_later (env : Env) (s : PState) (a : ℤ) (n : ℕ) (hs : env.state = some s)
    (ha : 0 ≤ a) (ha2 : a < 2) (hd : doneCond (physicsStep s a))
    (hn : env.steps_beyond_done = some n) :
    step env a = .ok
      ({ env with
          state := some (physicsStep s a)
          steps_beyond_done := some (n + 1)
          viewer := some () },
       { obs := some
            { cartx := (physicsStep s a).x * scale + screen_width / 2
              carty := 10
              rotation := -(physicsStep s a).theta }
         reward := 0
         done := 1
         level_seed := env.seed }) := by
  simp only [step, hs, ha, ha2, and_self, if_true, if_pos hd, hn, render_fst, render_snd,
    Option.map_some']

/-- The position update of the integrator only reads the old position and
velocity. -/
theorem physicsStep_x (s : PState) (a : ℤ) : (physicsStep s a).x = s.x + tau * s.x_dot := by
  simp [physicsStep, kinematics_integrator]

/-- The angle update of the integrator only reads the old angle and
angular velocity. -/
theorem physicsStep_theta (s : PState) (a : ℤ) :
    (physicsStep s a).theta = s.theta + tau * s.theta_dot := by
  simp [physicsStep, kinematics_integrator]

/-- The integrator and the acceleration formulas agree with the spec text
of section 4.1 for every action. -/
theorem physicsStep_eq_spec (s : PState) (a : ℤ) : physicsStep s a = specEulerStep s a := by
  simp only [physicsStep, specEulerStep, specXAcc, specThetaAcc, specTemp, specForce,
    gravity, total_mass, masscart, masspole, polelength, polemass_length, force_mag, tau,
    kinematics_integrator, reduceIte]
  ext <;> ring_nf

/-- One concrete integrator step: from `cexS0` with action 0 the state
moves to `cexS1`. -/
theorem phys_cex0 : physicsStep cexS0 0 = cexS1 := by
  simp only [physicsStep, cexS0, cexS1,
    gravity, total_mass, masscart, masspole, polelength, polemass_length, force_mag, tau,
    kinematics_integrator, Real.cos_zero, Real.sin_zero, reduceIte]
  norm_num [PState.mk.injEq]

/-- One concrete integrator step: from `cexS1` with action 0 the state
moves to `cexS2`. -/
theorem phys_cex1 : physicsStep cexS1 0 = cexS2 := by
  simp only [physicsStep, cexS1, cexS2,
    gravity, total_mass, masscart, masspole, polelength, polemass_length, force_mag, tau,
    kinematics_integrator, Real.cos_zero, Real.sin_zero, reduceIte]
  norm_num [PState.mk.injEq]

/-- First concrete call of the recovery trajectory: the updated position
2.5 is past the 2.4 threshold, so the call reports termination with
reward 1 and sets `steps_beyond_done` to 0. -/
theorem step_cex0 : step cexEnv0 0 = .ok
    (cexEnv1,
     { obs := some
          { cartx := cexS1.x * scale + screen_width / 2
            carty := 10
            rotation := -cexS1.theta }
       reward := 1
       done := 1
       level_seed := cexEnv0.seed }) := by
  have hd : doneCond (physicsStep cexS0 0) := by
    rw [phys_cex0]
    right; left
    norm_num [cexS1, x_threshold]
  rw [step_ok_done_first cexEnv0 cexS0 0 rfl (by norm_num) (by norm_num) hd rfl, phys_cex0]
  rfl

/-- Second concrete call of the recovery trajectory: the updated state is
back inside both thresholds, so the call reports no termination, reward 1,
and leaves `steps_beyond_done` untouched. -/
theorem step_cex1 : step cexEnv1 0 = .ok
    ({ cexEnv1 with
        state := some cexS2
        steps_beyond_done := cexEnv1.steps_beyond_done
        viewer := some () },
     { obs := some
          { cartx := cexS2.x * scale + screen_width / 2
            carty := 10
            rotation := -cexS2.theta }
       reward := 1
       done := 0
       level_seed := cexEnv1.seed }) := by
  have hnd : ¬ doneCond (physicsStep cexS1 0) := by
    rw [phys_cex1]
    unfold doneCond
    push_neg
    refine ⟨?_, ?_, ?_, ?_⟩
    · norm_num [cexS2, x_threshold]
    · norm_num [cexS2, x_threshold]
    · unfold cexS2 theta_threshold_radians
      norm_num
      linarith [Real.pi_gt_three]
    · unfold cexS2 theta_threshold_radians
      norm_num
      linarith [Real.pi_gt_three]
  rw [step_ok_notdone cexEnv1 cexS1 0 rfl (by norm_num) (by norm_num) hnd, phys_cex1]

/-- C1 (amended): the done flag returned by `step` is 1 exactly when the
updated state violates the position bound 2.4 or the angle bound
`12 * pi / 180` (12 degrees, the value of `12 * 2 * pi / 360` in the
source), in either direction, each variable independently. -/
theorem C1_done_iff_thresholds (env : Env) (s : PState) (a : ℤ)
    (hs : env.state = some s) (ha : 0 ≤ a) (ha2 : a < 2) :
    (((step env a).map fun p => p.2.done) = .ok 1 ↔
      ((physicsStep s a).x < -2.4 ∨ (physicsStep s a).x > 2.4 ∨
       (physicsStep s a).theta < -(12 * Real.pi / 180) ∨
       (physicsStep s a).theta > 12 * Real.pi / 180)) := by
  have hthr : theta_threshold_radians = 12 * Real.pi / 180 := by
    unfold theta_threshold_radians; ring
  by_cases hd : doneCond (physicsStep s a)
  · have h1 : ((step env a).map fun p => p.2.done) = .ok 1 := by
      cases hn : env.steps_beyond_done with
      | none => rw [step_ok_done_first env s a hs ha ha2 hd hn]; rfl
      | some n => rw [step_ok_done_later env s a n hs ha ha2 hd hn]; rfl
    refine iff_of_true h1 ?_
    unfold doneCond x_threshold at hd
    rw [hthr] at hd
    exact hd
  · have h0 : ((step env a).map fun p => p.2.done) = .ok 0 := by
      rw [step_ok_notdone env s a hs ha ha2 hd]; rfl
    refine iff_of_false ?_ ?_
    · rw [h0]
      simp
    · intro hC
      apply hd
      unfold doneCond x_threshold
      rw [hthr]
      exact hC

/-- Witness for C1: the amended equivalence instantiated on a live
environment at the origin state. -/
theorem C1_done_iff_thresholds_witness :
    wEnvA.state = some wS ∧ (0 : ℤ) ≤ 0 ∧ (0 : ℤ) < 2 ∧
      (((step wEnvA 0).map fun p => p.2.done) = .ok 1 ↔
        ((physicsStep wS 0).x < -2.4 ∨ (physicsStep wS 0).x > 2.4 ∨
         (physicsStep wS 0).theta < -(12 * Real.pi / 180) ∨
         (physicsStep wS 0).theta > 12 * Real.pi / 180)) :=
  ⟨rfl, le_refl 0, by norm_num, C1_done_iff_thresholds wEnvA wS 0 rfl (le_refl 0) (by norm_num)⟩

/-- Counterexample to C1 as stated: from the state `(0, 0, 0.3, 0)` a step
returns done flag 1, yet the claimed predicate with threshold
`24 * pi / 180` is false at the updated state (its angle 0.3 rad is about
17 degrees, between the 12-degree threshold of the source and the claimed
24 degrees). -/
theorem C1_claim_counterexample :
    c1Env.state = some c1S ∧
    ((step c1Env 0).map fun p => p.2.done) = .ok 1 ∧
    ¬ claimedDone (physicsStep c1S 0) := by
  refine ⟨rfl, ?_, ?_⟩
  · have hd : doneCond (physicsStep c1S 0) := by
      right; right; right
      rw [physicsStep_theta]
      unfold c1S theta_threshold_radians tau
      norm_num
      linarith [Real.pi_lt_d2]
    rw [step_ok_done_first c1Env c1S 0 rfl (by norm_num) (by norm_num) hd rfl]
    rfl
  · unfold claimedDone
    push_neg
    rw [physicsStep_x, physicsStep_theta]
    refine ⟨?_, ?_, ?_, ?_⟩
    · norm_num [c1S, tau]
    · norm_num [c1S, tau]
    · unfold c1S tau
      norm_num
      linarith [Real.pi_gt_three]
    · unfold c1S tau
      norm_num
      linarith [Real.pi_gt_three]

/-- C2: on a live state, `step` stores exactly the state required by the
spec text of section 4.1: force +10 for action 1 and -10 otherwise, the
`temp`/`thetaAcc`/`xAcc` formulas evaluated at the pre-update state, and
explicit forward Euler with dt = 0.02. -/
theorem C2_forward_euler (env : Env) (s : PState) (a : ℤ)
    (hs : env.state = some s) (h : a = 0 ∨ a = 1) :
    ((step env a).map fun p => p.1.state) = .ok (some (specEulerStep s a)) := by
  have ha : (0 : ℤ) ≤ a := by rcases h with h | h <;> omega
  have ha2 : a < 2 := by rcases h with h | h <;> omega
  by_cases hd : doneCond (physicsStep s a)
  · cases hn : env.steps_beyond_done with
    | none =>
      rw [step_ok_done_first env s a hs ha ha2 hd hn]
      simp [Except.map, physicsStep_eq_spec]
    | some n =>
      rw [step_ok_done_later env s a n hs ha ha2 hd hn]
      simp [Except.map, physicsStep_eq_spec]
  · rw [step_ok_notdone env s a hs ha ha2 hd]
    simp [Except.map, physicsStep_eq_spec]

/-- Witness for C2: the stored state after one step from the origin state
is the spec-side forward-Euler state. -/
theorem C2_forward_euler_witness :
    wEnvA.state = some wS ∧ ((1 : ℤ) = 0 ∨ (1 : ℤ) = 1) ∧
      ((step wEnvA 1).map fun p => p.1.state) = .ok (some (specEulerStep wS 1)) :=
  ⟨rfl, Or.inr rfl, C2_forward_euler wEnvA wS 1 rfl (Or.inr rfl)⟩

/-- C3 (amended): the reward returned by a `step` call is 0 exactly when
the recomputed termination test holds and `steps_beyond_done` was already
set; it is 1 when the test fails (even after a previous termination) and
on the first call on which the test holds. -/
theorem C3_reward_policy (env : Env) (s : PState) (a : ℤ)
    (hs : env.state = some s) (ha : 0 ≤ a) (ha2 : a < 2) :
    ((step env a).map fun p => p.2.reward) =
      .ok (if doneCond (physicsStep s a) ∧ env.steps_beyond_done ≠ none then 0 else 1) := by
  by_cases hd : doneCond (physicsStep s a)
  · cases hn : env.steps_beyond_done with
    | none =>
      rw [step_ok_done_first env s a hs ha ha2 hd hn]
      simp [Except.map, hn]
    | some n =>
      rw [step_ok_done_later env s a n hs ha ha2 hd hn]
      simp [Except.map, hd, hn]
  · rw [step_ok_notdone env s a hs ha ha2 hd]
    simp [Except.map, hd]

/-- Witness for C3: the amended reward characterisation instantiated on a
live environment at the origin state. -/
theorem C3_reward_policy_witness :
    wEnvA.state = some wS ∧ (0 : ℤ) ≤ 0 ∧ (0 : ℤ) < 2 ∧
      ((step wEnvA 0).map fun p => p.2.reward) =
        .ok (if doneCond (physicsStep wS 0) ∧ wEnvA.steps_beyond_done ≠ none then 0 else 1) :=
  ⟨rfl, le_refl 0, by norm_num, C3_reward_policy wEnvA wS 0 rfl (le_refl 0) (by norm_num)⟩

/-- Counterexample to C3 as stated: in the concrete trajectory from
`cexEnv0`, the first call observes done = 1 (with `steps_beyond_done`
previously unset), yet the next call of the same episode returns reward 1,
not the claimed 0.0, because the recomputed termination test fails
again. -/
theorem C3_claim_counterexample :
    cexEnv0.steps_beyond_done = none ∧
    ((step cexEnv0 0).map fun p => (p.2.done, p.2.reward)) = .ok (1, 1) ∧
    (((step cexEnv0 0).bind fun p => step p.1 0).map fun p => p.2.reward) = .ok 1 ∧
    (1 : ℝ) ≠ 0 := by
  refine ⟨rfl, ?_, ?_, by norm_num⟩
  · rw [step_cex0]
    rfl
  · rw [step_cex0]
    simp only [Except.bind]
    rw [step_cex1]
    rfl

/-- C4 (amended): `step` leaves `steps_beyond_done` at `none` while the
termination test fails and it was unset, sets it to 0 on the first call on
which the test holds, increments it on every later call on which the test
holds, leaves it unchanged on calls on which the test fails, and never
returns it to `none`; `reset` always clears it to `none`. -/
theorem C4_steps_beyond_done :
    (∀ (env : Env) (s : PState) (a : ℤ), env.state = some s → 0 ≤ a → a < 2 →
      ((step env a).map fun p => p.1.steps_beyond_done) =
        .ok (if doneCond (physicsStep s a)
             then env.steps_beyond_done.elim (some 0) (fun n => some (n + 1))
             else env.steps_beyond_done)) ∧
    (∀ (draw : ℤ → ℕ → ℝ) (entropy : ℤ) (initState : PState) (env : Env),
      ((reset draw entropy initState env).1).steps_beyond_done = none) := by
  constructor
  · intro env s a hs ha ha2
    by_cases hd : doneCond (physicsStep s a)
    · cases hn : env.steps_beyond_done with
      | none =>
        rw [step_ok_done_first env s a hs ha ha2 hd hn]
        simp [Except.map, hd, hn]
      | some n =>
        rw [step_ok_done_later env s a n hs ha ha2 hd hn]
        simp [Except.map, hd, hn]
    · rw [step_ok_notdone env s a hs ha ha2 hd]
      simp [Except.map, hd]
  · intro draw entropy initState env
    simp [reset, change_color, render_fst]

/-- Witness for C4: both conjuncts instantiated at concrete inputs. -/
theorem C4_steps_beyond_done_witness :
    (wEnvA.state = some wS ∧ (0 : ℤ) ≤ 0 ∧ (0 : ℤ) < 2 ∧
      ((step wEnvA 0).map fun p => p.1.steps_beyond_done) =
        .ok (if doneCond (physicsStep wS 0)
             then wEnvA.steps_beyond_done.elim (some 0) (fun n => some (n + 1))
             else wEnvA.steps_beyond_done)) ∧
    ((reset (fun _ _ => (0 : ℝ)) 0 wS (initEnv 1 0 0)).1).steps_beyond_done = none :=
  ⟨⟨rfl, le_refl 0, by norm_num,
      C4_steps_beyond_done.1 wEnvA wS 0 rfl (le_refl 0) (by norm_num)⟩,
    C4_steps_beyond_done.2 (fun _ _ => (0 : ℝ)) 0 wS (initEnv 1 0 0)⟩

/-- Counterexample to C4 as stated: in the concrete trajectory from
`cexEnv0`, termination is observed on the first call and
`steps_beyond_done` becomes 0, but the subsequent call leaves it at 0
instead of incrementing it to 1, because the recomputed termination test
fails there. -/
theorem C4_claim_counterexample :
    cexEnv0.steps_beyond_done = none ∧
    ((step cexEnv0 0).map fun p => (p.2.done, p.1.steps_beyond_done)) = .ok (1, some 0) ∧
    (((step cexEnv0 0).bind fun p => step p.1 0).map fun p => p.1.steps_beyond_done) =
      .ok (some 0) ∧
    (some 0 : Option ℕ) ≠ some 1 := by
  refine ⟨rfl, ?_, ?_, by simp⟩
  · rw [step_cex0]
    rfl
  · rw [step_cex0]
    simp only [Except.bind]
    rw [step_cex1]
    rfl

/-- C5: with `num_levels` nonzero, the seed and the whole five-color
palette after `reset` are independent of the process-level entropy and of
the initial-state draw: any two runs agree. -/
theorem C5_seed_palette_deterministic (draw : ℤ → ℕ → ℝ) (env : Env)
    (e1 e2 : ℤ) (sa sb : PState) (h : env.num_levels ≠ 0) :
    ((reset draw e1 sa env).1).seed = ((reset draw e2 sb env).1).seed ∧
    ((reset draw e1 sa env).1).polecolor = ((reset draw e2 sb env).1).polecolor ∧
    ((reset draw e1 sa env).1).cartcolor = ((reset draw e2 sb env).1).cartcolor ∧
    ((reset draw e1 sa env).1).axlecolor = ((reset draw e2 sb env).1).axlecolor ∧
    ((reset draw e1 sa env).1).trackcolor = ((reset draw e2 sb env).1).trackcolor ∧
    ((reset draw e1 sa env).1).backgroundcolor = ((reset draw e2 sb env).1).backgroundcolor := by
  simp [reset, h, render_fst, change_color, seed_set]

/-- Witness for C5: two runs with different entropy and different initial
states on a fixed-level environment. -/
theorem C5_seed_palette_deterministic_witness :
    (initEnv 3 7 0).num_levels ≠ 0 ∧
    (((reset (fun _ _ => (0 : ℝ)) 1 wS (initEnv 3 7 0)).1).seed =
       ((reset (fun _ _ => (0 : ℝ)) 2 ⟨1, 1, 1, 1⟩ (initEnv 3 7 0)).1).seed ∧
     ((reset (fun _ _ => (0 : ℝ)) 1 wS (initEnv 3 7 0)).1).polecolor =
       ((reset (fun _ _ => (0 : ℝ)) 2 ⟨1, 1, 1, 1⟩ (initEnv 3 7 0)).1).polecolor ∧
     ((reset (fun _ _ => (0 : ℝ)) 1 wS (initEnv 3 7 0)).1).cartcolor =
       ((reset (fun _ _ => (0 : ℝ)) 2 ⟨1, 1, 1, 1⟩ (initEnv 3 7 0)).1).cartcolor ∧
     ((reset (fun _ _ => (0 : ℝ)) 1 wS (initEnv 3 7 0)).1).axlecolor =
       ((reset (fun _ _ => (0 : ℝ)) 2 ⟨1, 1, 1, 1⟩ (initEnv 3 7 0)).1).axlecolor ∧
     ((reset (fun _ _ => (0 : ℝ)) 1 wS (initEnv 3 7 0)).1).trackcolor =
       ((reset (fun _ _ => (0 : ℝ)) 2 ⟨1, 1, 1, 1⟩ (initEnv 3 7 0)).1).trackcolor ∧
     ((reset (fun _ _ => (0 : ℝ)) 1 wS (initEnv 3 7 0)).1).backgroundcolor =
       ((reset (fun _ _ => (0 : ℝ)) 2 ⟨1, 1, 1, 1⟩ (initEnv 3 7 0)).1).backgroundcolor) :=
  ⟨by norm_num [initEnv, seed_set],
    C5_seed_palette_deterministic (fun _ _ => (0 : ℝ)) (initEnv 3 7 0) 1 2 wS ⟨1, 1, 1, 1⟩
      (by norm_num [initEnv, seed_set])⟩

/-- C6: one palette roll consumes exactly 15 scalar draws from the seeded
stream and assigns the five clipped `0.5 + 0.5 * z` triples in the fixed
order pole, cart, axle, track, background. -/
theorem C6_palette_roll (draw : ℤ → ℕ → ℝ) (env : Env) :
    (change_color draw env).np_random.pos = env.np_random.pos + 15 ∧
    (change_color draw env).np_random.seed = env.np_random.seed ∧
    (change_color draw env).polecolor =
      (clip01 (0.5 + 0.5 * draw env.np_random.seed env.np_random.pos),
       clip01 (0.5 + 0.5 * draw env.np_random.seed (env.np_random.pos + 1)),
       clip01 (0.5 + 0.5 * draw env.np_random.seed (env.np_random.pos + 2))) ∧
    (change_color draw env).cartcolor =
      (clip01 (0.5 + 0.5 * draw env.np_random.seed (env.np_random.pos + 3)),
       clip01 (0.5 + 0.5 * draw env.np_random.seed (env.np_random.pos + 4)),
       clip01 (0.5 + 0.5 * draw env.np_random.seed (env.np_random.pos + 5))) ∧
    (change_color draw env).axlecolor =
      (clip01 (0.5 + 0.5 * draw env.np_random.seed (env.np_random.pos + 6)),
       clip01 (0.5 + 0.5 * draw env.np_random.seed (env.np_random.pos + 7)),
       clip01 (0.5 + 0.5 * draw env.np_random.seed (env.np_random.pos + 8))) ∧
    (change_color draw env).trackcolor =
      (clip01 (0.5 + 0.5 * draw env.np_random.seed (env.np_random.pos + 9)),
       clip01 (0.5 + 0.5 * draw env.np_random.seed (env.np_random.pos + 10)),
       clip01 (0.5 + 0.5 * draw env.np_random.seed (env.np_random.pos + 11))) ∧
    (change_color draw env).backgroundcolor =
      (clip01 (0.5 + 0.5 * draw env.np_random.seed (env.np_random.pos + 12)),
       clip01 (0.5 + 0.5 * draw env.np_random.seed (env.np_random.pos + 13)),
       clip01 (0.5 + 0.5 * draw env.np_random.seed (env.np_random.pos + 14))) := by
  simp [change_color, normal3, clip3, Nat.add_assoc]

/-- C7: on a fresh instance, before any `reset`, `step` with a valid
action fails with the no-active-episode condition and `render` yields no
buffer data. -/
theorem C7_no_active_episode (nl off entropy a : ℤ) (ha : 0 ≤ a) (ha2 : a < 2) :
    step (initEnv nl off entropy) a = .error .noActiveEpisode ∧
    (render (initEnv nl off entropy)).2 = none :=
  ⟨step_no_episode _ a ha ha2 rfl, render_snd_none _ rfl⟩

/-- Witness for C7 at a concrete fresh instance and action 0. -/
theorem C7_no_active_episode_witness :
    (0 : ℤ) ≤ 0 ∧ (0 : ℤ) < 2 ∧
      (step (initEnv 1 0 0) 0 = .error .noActiveEpisode ∧
       (render (initEnv 1 0 0)).2 = none) :=
  ⟨le_refl 0, by norm_num, C7_no_active_episode 1 0 0 0 (le_refl 0) (by norm_num)⟩

/-- C8: `step` on any action other than 0 or 1 fails the action-space
assertion immediately: the call yields no observation, no reward, and no
successor environment. -/
theorem C8_invalid_action (env : Env) (a : ℤ) (h0 : a ≠ 0) (h1 : a ≠ 1) :
    step env a = .error .invalidAction := by
  apply step_invalid
  intro hc
  rcases hc with ⟨hl, hr⟩
  omega

/-- Witness for C8 at action 2 on a concrete environment. -/
theorem C8_invalid_action_witness :
    (2 : ℤ) ≠ 0 ∧ (2 : ℤ) ≠ 1 ∧ step (initEnv 1 0 0) 2 = .error .invalidAction :=
  ⟨by norm_num, by norm_num, C8_invalid_action (initEnv 1 0 0) 2 (by norm_num) (by norm_num)⟩

/-- C9: the termination test is recomputed each call and never latched:
if `steps_beyond_done` is already set but the updated state is inside both
thresholds, the call returns done 0 and reward 1 and leaves
`steps_beyond_done` unchanged. -/
theorem C9_done_not_latched (env : Env) (s : PState) (n : ℕ) (a : ℤ)
    (hs : env.state = some s) (hn : env.steps_beyond_done = some n)
    (ha : 0 ≤ a) (ha2 : a < 2)
    (hx1 : -2.4 ≤ (physicsStep s a).x) (hx2 : (physicsStep s a).x ≤ 2.4)
    (ht1 : -theta_threshold_radians ≤ (physicsStep s a).theta)
    (ht2 : (physicsStep s a).theta ≤ theta_threshold_radians) :
    ((step env a).map fun p => (p.2.done, p.2.reward, p.1.steps_beyond_done)) =
      .ok (0, 1, some n) := by
  have hnd : ¬ doneCond (physicsStep s a) := by
    unfold doneCond x_threshold
    push_neg
    exact ⟨hx1, hx2, ht1, ht2⟩
  rw [step_ok_notdone env s a hs ha ha2 hnd]
  simp [Except.map, hn]

/-- Witness for C9: an already-terminated bookkeeping state at the origin
physical state, which stays inside both thresholds. -/
theorem C9_done_not_latched_witness :
    c9Env.state = some wS ∧ c9Env.steps_beyond_done = some 0 ∧
    (0 : ℤ) ≤ 0 ∧ (0 : ℤ) < 2 ∧
    -2.4 ≤ (physicsStep wS 0).x ∧ (physicsStep wS 0).x ≤ 2.4 ∧
    -theta_threshold_radians ≤ (physicsStep wS 0).theta ∧
    (physicsStep wS 0).theta ≤ theta_threshold_radians ∧
    ((step c9Env 0).map fun p => (p.2.done, p.2.reward, p.1.steps_beyond_done)) =
      .ok (0, 1, some 0) := by
  have hx1 : (-2.4 : ℝ) ≤ (physicsStep wS 0).x := by
    rw [physicsStep_x]
    norm_num [wS, tau]
  have hx2 : (physicsStep wS 0).x ≤ 2.4 := by
    rw [physicsStep_x]
    norm_num [wS, tau]
  have ht1 : -theta_threshold_radians ≤ (physicsStep wS 0).theta := by
    rw [physicsStep_theta]
    unfold wS theta_threshold_radians tau
    norm_num
    linarith [Real.pi_gt_three]
  have ht2 : (physicsStep wS 0).theta ≤ theta_threshold_radians := by
    rw [physicsStep_theta]
    unfold wS theta_threshold_radians tau
    norm_num
    linarith [Real.pi_gt_three]
  exact ⟨rfl, rfl, le_refl 0, by norm_num, hx1, hx2, ht1, ht2,
    C9_done_not_latched c9Env wS 0 0 rfl rfl (le_refl 0) (by norm_num) hx1 hx2 ht1 ht2⟩

/-- C10: `close` is idempotent, always leaves the viewer handle cleared,
and is a no-op on an instance whose viewer was never constructed. -/
theorem C10_close_idempotent (env : Env) :
    close (close env) = close env ∧ (close env).viewer = none ∧
    (env.viewer = none → close env = env) := by
  obtain ⟨nl, off, sd, g, st, sbd, vw, pc, cc, ac, tc, bc⟩ := env
  rcases vw with _ | ⟨⟩ <;> simp [close]

/-- Witness for C10 on a concrete fresh instance. -/
theorem C10_close_idempotent_witness :
    close (close (initEnv 1 0 0)) = close (initEnv 1 0 0) ∧
    (close (initEnv 1 0 0)).viewer = none ∧
    ((initEnv 1 0 0).viewer = none → close (initEnv 1 0 0) = initEnv 1 0 0) :=
  C10_close_idempotent (initEnv 1 0 0)

end

end CartPoleVisual
